import Mathlib

/-!
Shallow embedding of the govmomi provisioner's `Create` reconcile path
(`pkg/cloud/vsphere/provisioner/govmomi/create.go`): the task-tracker state
machine `verifyAndUpdateTask`, the clone-spec device-change construction in
`cloneVirtualMachine`, and the orchestrating `Create` entry point.

External collaborators (the vSphere session, the search index, the finder, the
cluster-api object store, the event recorder) are modelled as explicit
environment values: each fallible remote call becomes an `Except` field of an
environment record, and the persisted `Machine` object becomes an explicit
`MachineState` that the functions transform.  The store updates
(`updateVMReference`, `setTaskRef`) are modelled as succeeding, which is the
code path all the claims are about; the wall-clock `LastUpdated` field is
omitted.
-/

namespace VSphereCreate

/-- The remote state of a vSphere task, `types.TaskInfoState` in govmomi.
The Go type is a string; the four known constants get their own
constructors and every other string is `other`. -/
inductive TaskInfoState where
  | queued
  | running
  | success
  | error
  | other (s : String)
deriving DecidableEq, Repr

/-- The fields of `taskmo.Info` that `verifyAndUpdateTask` reads.  `result`
is the managed-object-reference value carried by a successful clone task
(the Go code casts `Info.Result` to `types.ManagedObjectReference` and uses
its `Value`). -/
structure TaskInfo where
  state : TaskInfoState
  descriptionId : String
  result : String
  entityName : String
deriving DecidableEq, Repr

/-- How the `RetrieveOne` query of a task reference can fail.  The Go code
receives a single opaque `error`; this type records the distinction the
specification draws (reference no longer resolving vs. a transport failure),
so that we can state what the code does with each kind. -/
inductive QueryError where
  | notFound
  | transport (msg : String)
deriving DecidableEq, Repr

/-- A disk-resize directive, `vsphereconfigv1.DiskSpec`. -/
structure DiskSpec where
  diskLabel : String
  diskSizeGB : Int
deriving DecidableEq, Repr

/-- The persisted machine record, restricted to the fields the Create path
reads and writes: the display name, the stored task reference
(`providerStatus.TaskRef`, empty string meaning none), the recorded VM
reference (`providerSpec.MachineRef`), the template identifier and the
disk/network configuration from `MachineSpec`. -/
structure MachineState where
  name : String
  taskRef : String
  machineRef : String
  vmTemplate : String
  disks : List DiskSpec
  networks : List String
deriving DecidableEq, Repr

/-- Events emitted through the event recorder (`Eventf` calls). -/
inductive Event where
  | created (machineName vmRef : String)
  | reconfigured (entityName : String)
  | failed (machineName : String)
  | creating (machineName : String)
deriving DecidableEq, Repr

/-- The value a reconcile invocation returns: `ok` for a nil error,
`requeueAfter` for a `clustererror.RequeueAfterError` (a retry signal, in
seconds), and `err` for a hard error. -/
inductive ReconcileResult where
  | ok
  | requeueAfter (seconds : Nat)
  | err (msg : String)
deriving DecidableEq, Repr

/-- A virtual disk on the template (`types.VirtualDisk`): its device-info
label and current capacity in bytes. -/
structure VirtualDisk where
  label : String
  capacityInBytes : Int
deriving DecidableEq, Repr

/-- A device present on the template's hardware list, as far as the clone
path distinguishes them: virtual disks, ethernet cards (identified by their
device key) and everything else. -/
inductive TemplateDevice where
  | disk (d : VirtualDisk)
  | ethernet (key : Int)
  | otherDev (name : String)
deriving DecidableEq, Repr

/-- The operation of a `types.VirtualDeviceConfigSpec`. -/
inductive DeviceOperation where
  | add
  | remove
  | edit
deriving DecidableEq, Repr

/-- The device carried by a device-change entry: an edited disk (with its
new capacity), a removed ethernet card, or an added `VirtualVmxnet3` adapter
with its synthetic key and resolved network backing. -/
inductive SpecDevice where
  | disk (d : VirtualDisk)
  | ethernet (key : Int)
  | vmxnet3 (key : Int) (backing : String)
deriving DecidableEq, Repr

/-- One entry of `spec.Config.DeviceChange`. -/
structure DeviceConfigSpec where
  operation : DeviceOperation
  device : SpecDevice
deriving DecidableEq, Repr

/-- The observable outcome of one reconcile invocation: the machine record
as persisted when the call returns, the events emitted, the device-change
list of a clone submission when one happened, and the returned value. -/
structure ReconcileOutcome where
  machine : MachineState
  events : List Event
  submitted : Option (List DeviceConfigSpec)
  result : ReconcileResult
deriving DecidableEq, Repr

/-- Modelled from the spec: `vsphereutils.GiBToByte` is not part of the
sources under review; per the specification's unit-conversion scenario
(50 GiB disk, directive 100 → capacity field 100 GiB exactly) it converts
gibibytes to bytes. -/
def GiBToByte (n : Int) : Int :=
  n * (1024 ^ 3)

/-- Modelled from the spec: `constants.ClusterIsNullErr`, the message
returned when `Create` is invoked with a nil cluster. -/
def clusterIsNullErr : String :=
  "cluster is null, create failed"

/-- The fatal message returned when a resize directive asks to shrink a
template disk (create.go line 360). -/
def diskShrinkErr : String :=
  "[FATAL] Disk size provided should be more than actual disk size of the template. Please correct the machineSpec to proceed"

/-- The fatal message returned when directives are non-empty but matched no
template disk (create.go line 373). -/
def noDiskMatchedErr (tmpl : String) : String :=
  "[FATAL] None of the disks specified in the MachineSpec matched with the disks on the template " ++ tmpl

/-- Embedding of `setTaskRef` restricted to its effect on the machine
record: a no-op when the stored reference already equals the new value,
otherwise the task reference is replaced.  The store update is modelled as
succeeding. -/
def setTaskRef (m : MachineState) (taskref : String) : MachineState :=
  if m.taskRef = taskref then m else { m with taskRef := taskref }

/-- Embedding of `updateVMReference`: records the VM reference in the
machine's provider spec (`providerSpec.MachineRef = vmref`).  The store
update is modelled as succeeding. -/
def updateVMReference (m : MachineState) (vmref : String) : MachineState :=
  { m with machineRef := vmref }

/-- Embedding of `verifyAndUpdateTask`.  `taskmoref` is the stored task
reference being checked and `query` is the outcome of the
`RetrieveOne(ctx, taskref, ["info"], &taskmo)` call.  Mirrors create.go
lines 85-134: any query error clears the reference; queued/running requeues
after 5 seconds; success dispatches on the task's description id;
error clears the reference only for clone tasks; any other state is a hard
error with the reference left alone. -/
def verifyAndUpdateTask (m : MachineState) (taskmoref : String)
    (query : Except QueryError TaskInfo) : ReconcileOutcome :=
  match query with
  | .error _ =>
    -- create.go line 95-98: any RetrieveOne error is taken to mean the task
    -- no longer exists, and the reference is cleared with no error returned.
    { machine := setTaskRef m "", events := [], submitted := none, result := .ok }
  | .ok taskmo =>
    match taskmo.state with
    | .queued =>
      { machine := m, events := [], submitted := none, result := .requeueAfter 5 }
    | .running =>
      { machine := m, events := [], submitted := none, result := .requeueAfter 5 }
    | .success =>
      if taskmo.descriptionId = "VirtualMachine.clone" then
        { machine := setTaskRef (updateVMReference m taskmo.result) ""
          events := [Event.created m.name taskmo.result]
          submitted := none
          result := .ok }
      else if taskmo.descriptionId = "VirtualMachine.reconfigure" then
        { machine := setTaskRef m ""
          events := [Event.reconfigured taskmo.entityName]
          submitted := none
          result := .ok }
      else
        { machine := setTaskRef m "", events := [], submitted := none, result := .ok }
    | .error =>
      if taskmo.descriptionId = "VirtualMachine.clone" then
        { machine := setTaskRef m ""
          events := [Event.failed m.name]
          submitted := none
          result := .ok }
      else
        -- create.go: the error case returns inside the `if` only for clone
        -- tasks; other kinds fall through the switch to `return nil`.
        { machine := m, events := [], submitted := none, result := .ok }
    | .other s =>
      { machine := m
        events := []
        submitted := none
        result := .err ("Unknown state " ++ taskmoref ++ " for task " ++ s ++ " detected") }

/-- The `diskMap` closure of `cloneVirtualMachine` (create.go lines
348-354) builds a Go map from disk label to requested size; for duplicate
labels the later entry overwrites the earlier one.  This is its lookup. -/
def diskMapLookup : List DiskSpec → String → Option Int
  | [], _ => none
  | s :: rest, label =>
    match diskMapLookup rest label with
    | some v => some v
    | none => if s.diskLabel = label then some s.diskSizeGB else none

/-- The disks on the template hardware list, in order
(`l.SelectByType((*types.VirtualDisk)(nil))`). -/
def selectDisks : List TemplateDevice → List VirtualDisk
  | [] => []
  | .disk d :: rest => d :: selectDisks rest
  | .ethernet _ :: rest => selectDisks rest
  | .otherDev _ :: rest => selectDisks rest

/-- The device keys of the ethernet cards on the template hardware list, in
order (`l.SelectByType((*types.VirtualEthernetCard)(nil))`). -/
def selectNicKeys : List TemplateDevice → List Int
  | [] => []
  | .disk _ :: rest => selectNicKeys rest
  | .ethernet k :: rest => k :: selectNicKeys rest
  | .otherDev _ :: rest => selectNicKeys rest

/-- The disk-resize loop of `cloneVirtualMachine` (create.go lines
355-370): walk the template's disks in order; a disk whose label is in the
directive map is resized — shrinking is the fatal `diskShrinkErr` — and
contributes an edit device-change entry carrying the disk with its new
capacity; the boolean records whether any disk matched. -/
def processDisks (lookup : String → Option Int) :
    List VirtualDisk → Except String (List DeviceConfigSpec × Bool)
  | [] => .ok ([], false)
  | d :: rest =>
    match lookup d.label with
    | some newSize =>
      if GiBToByte newSize < d.capacityInBytes then
        .error diskShrinkErr
      else
        match processDisks lookup rest with
        | .error e => .error e
        | .ok (specs, _) =>
          .ok ({ operation := .edit
                 device := .disk { label := d.label, capacityInBytes := GiBToByte newSize } } :: specs,
               true)
    | none =>
      match processDisks lookup rest with
      | .error e => .error e
      | .ok (specs, change) => .ok (specs, change)

/-- The removal entries for the template's existing network adapters
(create.go lines 376-384): one remove device-change entry per ethernet
card. -/
def nicRemovals (tds : List TemplateDevice) : List DeviceConfigSpec :=
  (selectNicKeys tds).map fun k => { operation := .remove, device := .ethernet k }

/-- The adapter-addition loop of `cloneVirtualMachine` (create.go lines
385-403): one `VirtualVmxnet3` add entry per configured network, bound to
the network's resolved backing, with synthetic device keys counting down
from the starting key (`nicid := -100`, decremented per adapter).
`resolveNet` stands for `finder.Network` followed by
`EthernetCardBackingInfo`, either of whose failures aborts the build. -/
def buildNicAdds (resolveNet : String → Except String String) :
    List String → Int → Except String (List DeviceConfigSpec)
  | [], _ => .ok []
  | n :: rest, nicid =>
    match resolveNet n with
    | .error e => .error e
    | .ok backing =>
      match buildNicAdds resolveNet rest (nicid - 1) with
      | .error e => .error e
      | .ok specs =>
        .ok ({ operation := .add, device := .vmxnet3 nicid backing } :: specs)

/-- The full device-change list of the clone specification: disk edits,
then adapter removals, then adapter additions, with the two fatal disk
checks (shrink inside the loop; non-empty directives matching no disk after
it). -/
def buildDeviceChanges (m : MachineState) (tds : List TemplateDevice)
    (resolveNet : String → Except String String) :
    Except String (List DeviceConfigSpec) :=
  match processDisks (diskMapLookup m.disks) (selectDisks tds) with
  | .error e => .error e
  | .ok (diskEdits, diskChange) =>
    if !diskChange && !m.disks.isEmpty then
      .error (noDiskMatchedErr m.vmTemplate)
    else
      match buildNicAdds resolveNet m.networks (-100) with
      | .error e => .error e
      | .ok adds => .ok (diskEdits ++ nicRemovals tds ++ adds)

/-- The environment of one `cloneVirtualMachine` call.  `preSteps`
aggregates every fallible step that precedes the device-change construction
(provider-spec decoding, datacenter/template/host/folder/datastore/
resource-pool resolution, cloud-init payload generation, vApp handling —
create.go lines 141-333); `templateDevices` is the template's hardware list
from `vmProps`; `resolveNet` resolves a configured network name to its
backing; `submitClone` is the outcome of `src.Clone`, a task reference on
success. -/
structure CloneEnv where
  preSteps : Except String Unit
  templateDevices : List TemplateDevice
  resolveNet : String → Except String String
  submitClone : Except String String

/-- Embedding of `cloneVirtualMachine` (create.go lines 137-414): after the
preparatory steps, build the device-change list, emit a "creating"
notification, submit the clone, and store the returned task reference. -/
def cloneVirtualMachine (m : MachineState) (env : CloneEnv) : ReconcileOutcome :=
  match env.preSteps with
  | .error e => { machine := m, events := [], submitted := none, result := .err e }
  | .ok _ =>
    match buildDeviceChanges m env.templateDevices env.resolveNet with
    | .error e => { machine := m, events := [], submitted := none, result := .err e }
    | .ok deviceSpecs =>
      match env.submitClone with
      | .error e =>
        { machine := m, events := [Event.creating m.name], submitted := none, result := .err e }
      | .ok taskref =>
        { machine := setTaskRef m taskref
          events := [Event.creating m.name]
          submitted := some deviceSpecs
          result := .ok }

/-- Embedding of `findVMByInstanceUUID` (create.go lines 71-83): `q` is the
search-index `FindByUuid` response; a query error is wrapped, a nil result
becomes the empty string. -/
def findVMByInstanceUUID (q : Except String (Option String)) : Except String String :=
  match q with
  | .error e => .error ("error quering virtual machine or template using FindByUuid: " ++ e)
  | .ok (some r) => .ok r
  | .ok none => .ok ""

/-- The environment of one `Create` call: session establishment
(`sessionFromProviderConfig` and `UserSession`), the instance-UUID search
response, the task-state query used when a task reference is stored, and
the clone environment. -/
structure CreateEnv where
  session : Except String Unit
  findByUUID : Except String (Option String)
  taskQuery : Except QueryError TaskInfo
  cloneEnv : CloneEnv

/-- Embedding of `Create` (create.go lines 31-69): nil-cluster check,
session establishment, then — if a task reference is stored — delegate to
`verifyAndUpdateTask`; otherwise resolve the VM by instance UUID, record
its reference and emit a "created" notification when found, and in either
case continue into `cloneVirtualMachine`. -/
def Create (clusterPresent : Bool) (m : MachineState) (env : CreateEnv) :
    ReconcileOutcome :=
  if !clusterPresent then
    { machine := m, events := [], submitted := none, result := .err clusterIsNullErr }
  else
    match env.session with
    | .error e => { machine := m, events := [], submitted := none, result := .err e }
    | .ok _ =>
      if m.taskRef ≠ "" then
        verifyAndUpdateTask m m.taskRef env.taskQuery
      else
        match findVMByInstanceUUID env.findByUUID with
        | .error e => { machine := m, events := [], submitted := none, result := .err e }
        | .ok vmRef =>
          if vmRef ≠ "" then
            let out := cloneVirtualMachine (updateVMReference m vmRef) env.cloneEnv
            { machine := out.machine
              events := Event.created m.name vmRef :: out.events
              submitted := out.submitted
              result := out.result }
          else
            cloneVirtualMachine m env.cloneEnv

/-- The device keys of the adapter-addition entries of a device-change
list. -/
def nicAddKeys (specs : List DeviceConfigSpec) : List Int :=
  specs.filterMap fun s =>
    match s with
    | { operation := .add, device := .vmxnet3 k _ } => some k
    | _ => none

/-- The device keys of the adapter-removal entries of a device-change
list. -/
def nicRemovalKeys (specs : List DeviceConfigSpec) : List Int :=
  specs.filterMap fun s =>
    match s with
    | { operation := .remove, device := .ethernet k } => some k
    | _ => none

theorem setTaskRef_taskRef (m : MachineState) (t : String) :
    (setTaskRef m t).taskRef = t := by
  unfold setTaskRef
  split
  case isTrue h => exact h
  case isFalse h => rfl

theorem verifyAndUpdateTask_submitted (m : MachineState) (tref : String)
    (q : Except QueryError TaskInfo) :
    (verifyAndUpdateTask m tref q).submitted = none := by
  unfold verifyAndUpdateTask
  rcases q with e | ⟨st, dId, res, en⟩
  · rfl
  · cases st <;> dsimp only <;> (repeat' split) <;> rfl

/-- Claim C2, amended: when the task tracker queries the state of a stored
Task Reference, every failure of that query — whether the reference no
longer resolves to any known operation or a transport/query failure — is
treated as terminal-lost: the reference is cleared and no error is
returned. -/
theorem task_query_failure_always_clears_reference (m : MachineState)
    (tref : String) (e : QueryError) :
    verifyAndUpdateTask m tref (.error e) =
      { machine := setTaskRef m "", events := [], submitted := none, result := .ok } ∧
    (verifyAndUpdateTask m tref (.error e)).machine.taskRef = "" := by
  exact ⟨rfl, setTaskRef_taskRef m ""⟩

/-- Claim C2, counterexample: a transport failure of the state query
("connection refused", distinct from the reference not resolving) is not
returned to the caller as an error and does not leave the reference
stored — the code clears the reference and returns no error. -/
theorem task_query_transport_error_cleared_counterexample :
    (verifyAndUpdateTask
        { name := "machine-a", taskRef := "task-1", machineRef := ""
          vmTemplate := "tmpl", disks := [], networks := [] }
        "task-1" (.error (.transport "connection refused"))).result = .ok ∧
    (verifyAndUpdateTask
        { name := "machine-a", taskRef := "task-1", machineRef := ""
          vmTemplate := "tmpl", disks := [], networks := [] }
        "task-1" (.error (.transport "connection refused"))).machine.taskRef = "" ∧
    ¬ (verifyAndUpdateTask
        { name := "machine-a", taskRef := "task-1", machineRef := ""
          vmTemplate := "tmpl", disks := [], networks := [] }
        "task-1" (.error (.transport "connection refused"))).machine.taskRef = "task-1" := by
  refine ⟨rfl, rfl, ?_⟩
  decide

/-- Claim C4: a tracked clone operation that completed in the error state
makes the reconcile emit a "failed" notification and clear the Task
Reference, and the failure is not returned as a hard error. -/
theorem clone_error_clears_reference_no_hard_error (m : MachineState)
    (tref res en : String) :
    verifyAndUpdateTask m tref
        (.ok { state := .error, descriptionId := "VirtualMachine.clone"
               result := res, entityName := en }) =
      { machine := setTaskRef m "", events := [Event.failed m.name]
        submitted := none, result := .ok } ∧
    (verifyAndUpdateTask m tref
        (.ok { state := .error, descriptionId := "VirtualMachine.clone"
               result := res, entityName := en })).machine.taskRef = "" := by
  exact ⟨rfl, setTaskRef_taskRef m ""⟩

/-- Claim C5: a stored Task Reference whose queried remote state is neither
queued, running, success, nor error makes the reconcile return a hard
error, with the machine record — in particular the Task Reference — left
unchanged. -/
theorem unknown_state_hard_error_reference_unchanged (m : MachineState)
    (tref s dId res en : String) :
    verifyAndUpdateTask m tref
        (.ok { state := .other s, descriptionId := dId
               result := res, entityName := en }) =
      { machine := m, events := [], submitted := none
        result := .err ("Unknown state " ++ tref ++ " for task " ++ s ++ " detected") } := by
  rfl

/-- Claim C6: a stored Task Reference whose remote state is queued or
running makes the reconcile perform no mutation of the machine record and
return a retry-after signal with a fixed 5-second delay, which is not an
error. -/
theorem queued_running_requeue_no_mutation (m : MachineState)
    (tref dIdq resq enq dIdr resr enr : String) :
    verifyAndUpdateTask m tref
        (.ok { state := .queued, descriptionId := dIdq
               result := resq, entityName := enq }) =
      { machine := m, events := [], submitted := none, result := .requeueAfter 5 } ∧
    verifyAndUpdateTask m tref
        (.ok { state := .running, descriptionId := dIdr
               result := resr, entityName := enr }) =
      { machine := m, events := [], submitted := none, result := .requeueAfter 5 } := by
  exact ⟨rfl, rfl⟩

/-- Claim C10: a stored Task Reference whose tracked operation is not a
clone and whose remote state is error makes the reconcile return nil — no
error and no retry signal — with the machine record, in particular the
Task Reference, left unchanged. -/
theorem nonclone_error_state_silent_noop (m : MachineState)
    (tref dId res en : String) (h : dId ≠ "VirtualMachine.clone") :
    verifyAndUpdateTask m tref
        (.ok { state := .error, descriptionId := dId
               result := res, entityName := en }) =
      { machine := m, events := [], submitted := none, result := .ok } := by
  simp [verifyAndUpdateTask, h]

theorem nonclone_error_state_silent_noop_witness :
    verifyAndUpdateTask
        { name := "machine-b", taskRef := "task-2", machineRef := ""
          vmTemplate := "tmpl", disks := [], networks := [] }
        "task-2"
        (.ok { state := .error, descriptionId := "VirtualMachine.reconfigure"
               result := "", entityName := "machine-b" }) =
      { machine := { name := "machine-b", taskRef := "task-2", machineRef := ""
                     vmTemplate := "tmpl", disks := [], networks := [] }
        events := [], submitted := none, result := .ok } := by
  exact nonclone_error_state_silent_noop _ "task-2" _ "" "machine-b" (by decide)

/-- Claim C1: the reconcile checks run in short-circuiting order.  With the
cluster present and the session established: when a Task Reference is
stored the call is exactly the task tracker's outcome (in particular no
clone is submitted); when none is stored and identity resolution finds a
VM, its reference is recorded, a "created" notification is emitted, and the
call still continues into `cloneVirtualMachine`; when identity resolution
finds nothing the call is exactly `cloneVirtualMachine`. -/
theorem create_short_circuit_order (m : MachineState) (env : CreateEnv)
    (hsess : env.session = .ok ()) :
    (m.taskRef ≠ "" →
      Create true m env = verifyAndUpdateTask m m.taskRef env.taskQuery ∧
      (Create true m env).submitted = none) ∧
    (∀ r, m.taskRef = "" → env.findByUUID = .ok (some r) → r ≠ "" →
      Create true m env =
        { machine := (cloneVirtualMachine (updateVMReference m r) env.cloneEnv).machine
          events := Event.created m.name r ::
            (cloneVirtualMachine (updateVMReference m r) env.cloneEnv).events
          submitted := (cloneVirtualMachine (updateVMReference m r) env.cloneEnv).submitted
          result := (cloneVirtualMachine (updateVMReference m r) env.cloneEnv).result }) ∧
    (m.taskRef = "" → env.findByUUID = .ok none →
      Create true m env = cloneVirtualMachine m env.cloneEnv) := by
  refine ⟨fun h => ?_, fun r h0 hf hr => ?_, fun h0 hf => ?_⟩
  · have he : Create true m env = verifyAndUpdateTask m m.taskRef env.taskQuery := by
      simp [Create, hsess, h]
    exact ⟨he, by rw [he]; exact verifyAndUpdateTask_submitted m m.taskRef env.taskQuery⟩
  · simp [Create, hsess, h0, findVMByInstanceUUID, hf, hr]
  · simp [Create, hsess, h0, findVMByInstanceUUID]
    rw [hf]
    rfl

theorem create_short_circuit_order_witness :
    (Create true
        { name := "machine-d", taskRef := "task-4", machineRef := ""
          vmTemplate := "tmpl", disks := [], networks := [] }
        { session := .ok (), findByUUID := .ok none
          taskQuery := .ok { state := .running, descriptionId := "VirtualMachine.clone"
                             result := "", entityName := "machine-d" }
          cloneEnv := { preSteps := .ok (), templateDevices := []
                        resolveNet := fun _ => .error "unused"
                        submitClone := .ok "task-5" } } =
      verifyAndUpdateTask
        { name := "machine-d", taskRef := "task-4", machineRef := ""
          vmTemplate := "tmpl", disks := [], networks := [] }
        "task-4"
        (.ok { state := .running, descriptionId := "VirtualMachine.clone"
               result := "", entityName := "machine-d" })) ∧
    (Create true
        { name := "machine-e", taskRef := "", machineRef := ""
          vmTemplate := "tmpl", disks := [], networks := [] }
        { session := .ok (), findByUUID := .ok (some "vm-7")
          taskQuery := .error .notFound
          cloneEnv := { preSteps := .ok (), templateDevices := []
                        resolveNet := fun _ => .error "unused"
                        submitClone := .ok "task-5" } } =
      { machine := { name := "machine-e", taskRef := "task-5", machineRef := "vm-7"
                     vmTemplate := "tmpl", disks := [], networks := [] }
        events := [Event.created "machine-e" "vm-7", Event.creating "machine-e"]
        submitted := some []
        result := .ok }) ∧
    (Create true
        { name := "machine-e", taskRef := "", machineRef := ""
          vmTemplate := "tmpl", disks := [], networks := [] }
        { session := .ok (), findByUUID := .ok none
          taskQuery := .error .notFound
          cloneEnv := { preSteps := .ok (), templateDevices := []
                        resolveNet := fun _ => .error "unused"
                        submitClone := .ok "task-5" } } =
      cloneVirtualMachine
        { name := "machine-e", taskRef := "", machineRef := ""
          vmTemplate := "tmpl", disks := [], networks := [] }
        { preSteps := .ok (), templateDevices := []
          resolveNet := fun _ => .error "unused"
          submitClone := .ok "task-5" }) := by
  refine ⟨((create_short_circuit_order _ _ rfl).1 (by decide)).1, ?_, ?_⟩
  · rw [(create_short_circuit_order _ _ rfl).2.1 "vm-7" rfl rfl (by decide)]
    rfl
  · exact (create_short_circuit_order _ _ rfl).2.2 rfl rfl

/-- Claim C3, amended: a tracked clone operation completing with success
makes the reconcile resolve the new VM's reference from the operation
result, record it as the machine's Instance Reference, emit a "created"
notification and clear the Task Reference; a subsequent invocation after
the clear takes the no-Task-Reference branch and re-resolves the VM by
identity tag, recording its reference — but it then still proceeds into
`cloneVirtualMachine` and, when the build and submission succeed, submits a
new clone rather than stopping at the re-resolved VM. -/
theorem clone_success_records_reference_then_reclones (m : MachineState)
    (tref res en : String) (env : CreateEnv) :
    (verifyAndUpdateTask m tref
        (.ok { state := .success, descriptionId := "VirtualMachine.clone"
               result := res, entityName := en }) =
      { machine := setTaskRef (updateVMReference m res) ""
        events := [Event.created m.name res]
        submitted := none, result := .ok } ∧
      (verifyAndUpdateTask m tref
        (.ok { state := .success, descriptionId := "VirtualMachine.clone"
               result := res, entityName := en })).machine.taskRef = "" ∧
      (verifyAndUpdateTask m tref
        (.ok { state := .success, descriptionId := "VirtualMachine.clone"
               result := res, entityName := en })).machine.machineRef = res) ∧
    (∀ r, m.taskRef = "" → env.session = .ok () →
      env.findByUUID = .ok (some r) → r ≠ "" →
      Create true m env =
        { machine := (cloneVirtualMachine (updateVMReference m r) env.cloneEnv).machine
          events := Event.created m.name r ::
            (cloneVirtualMachine (updateVMReference m r) env.cloneEnv).events
          submitted := (cloneVirtualMachine (updateVMReference m r) env.cloneEnv).submitted
          result := (cloneVirtualMachine (updateVMReference m r) env.cloneEnv).result } ∧
      (∀ specs t, env.cloneEnv.preSteps = .ok () →
        buildDeviceChanges (updateVMReference m r) env.cloneEnv.templateDevices
          env.cloneEnv.resolveNet = .ok specs →
        env.cloneEnv.submitClone = .ok t →
        (Create true m env).submitted = some specs)) := by
  refine ⟨⟨rfl, setTaskRef_taskRef _ "", ?_⟩, fun r h0 hsess hf hr => ?_⟩
  · show (setTaskRef (updateVMReference m res) "").machineRef = res
    unfold setTaskRef
    split <;> rfl
  · have he : Create true m env =
        { machine := (cloneVirtualMachine (updateVMReference m r) env.cloneEnv).machine
          events := Event.created m.name r ::
            (cloneVirtualMachine (updateVMReference m r) env.cloneEnv).events
          submitted := (cloneVirtualMachine (updateVMReference m r) env.cloneEnv).submitted
          result := (cloneVirtualMachine (updateVMReference m r) env.cloneEnv).result } := by
      simp [Create, hsess, h0, findVMByInstanceUUID, hf, hr]
    refine ⟨he, fun specs t hpre hbuild hsub => ?_⟩
    rw [he]
    simp [cloneVirtualMachine, hpre, hbuild, hsub]

/-- Claim C3, counterexample: after a cleared Task Reference, an invocation
that re-resolves the VM by identity tag still submits a new clone — the
reconcile outcome carries a submitted device-change list, contradicting
"re-resolves the VM by identity tag instead of re-cloning". -/
theorem create_after_clear_still_clones_counterexample :
    (Create true
        { name := "machine-c", taskRef := "", machineRef := ""
          vmTemplate := "tmpl", disks := [], networks := [] }
        { session := .ok (), findByUUID := .ok (some "vm-1")
          taskQuery := .error .notFound
          cloneEnv := { preSteps := .ok (), templateDevices := []
                        resolveNet := fun _ => .error "unused"
                        submitClone := .ok "task-3" } }).submitted = some [] ∧
    ¬ (Create true
        { name := "machine-c", taskRef := "", machineRef := ""
          vmTemplate := "tmpl", disks := [], networks := [] }
        { session := .ok (), findByUUID := .ok (some "vm-1")
          taskQuery := .error .notFound
          cloneEnv := { preSteps := .ok (), templateDevices := []
                        resolveNet := fun _ => .error "unused"
                        submitClone := .ok "task-3" } }).submitted = none := by
  exact ⟨rfl, by decide⟩

theorem clone_success_records_reference_then_reclones_witness :
    (verifyAndUpdateTask
        { name := "machine-f", taskRef := "task-6", machineRef := ""
          vmTemplate := "tmpl", disks := [], networks := [] }
        "task-6"
        (.ok { state := .success, descriptionId := "VirtualMachine.clone"
               result := "vm-9", entityName := "machine-f" })).machine.machineRef = "vm-9" ∧
    (Create true
        { name := "machine-g", taskRef := "", machineRef := ""
          vmTemplate := "tmpl", disks := [], networks := [] }
        { session := .ok (), findByUUID := .ok (some "vm-9")
          taskQuery := .error .notFound
          cloneEnv := { preSteps := .ok (), templateDevices := []
                        resolveNet := fun _ => .error "unused"
                        submitClone := .ok "task-7" } }).submitted = some [] := by
  constructor
  · exact (clone_success_records_reference_then_reclones
      { name := "machine-f", taskRef := "task-6", machineRef := ""
        vmTemplate := "tmpl", disks := [], networks := [] }
      "task-6" "vm-9" "machine-f"
      { session := .ok (), findByUUID := .ok none, taskQuery := .error .notFound
        cloneEnv := { preSteps := .ok (), templateDevices := []
                      resolveNet := fun _ => .error "unused"
                      submitClone := .ok "task-7" } }).1.2.2
  · exact ((clone_success_records_reference_then_reclones
      { name := "machine-g", taskRef := "", machineRef := ""
        vmTemplate := "tmpl", disks := [], networks := [] }
      "task-6" "vm-9" "machine-f"
      { session := .ok (), findByUUID := .ok (some "vm-9")
        taskQuery := .error .notFound
        cloneEnv := { preSteps := .ok (), templateDevices := []
                      resolveNet := fun _ => .error "unused"
                      submitClone := .ok "task-7" } }).2 "vm-9" rfl rfl rfl
      (by decide)).2 [] "task-7" rfl rfl rfl

theorem diskMapLookup_eq_none (specs : List DiskSpec) (label : String)
    (h : label ∉ specs.map (fun s => s.diskLabel)) :
    diskMapLookup specs label = none := by
  induction specs with
  | nil => rfl
  | cons s rest ih =>
    simp only [List.map_cons, List.mem_cons, not_or] at h
    unfold diskMapLookup
    rw [ih h.2]
    have hne : ¬ s.diskLabel = label := fun he => h.1 he.symm
    simp [hne]

theorem diskMapLookup_of_nodup (specs : List DiskSpec) (d : DiskSpec)
    (hn : (specs.map (fun s => s.diskLabel)).Nodup) (hd : d ∈ specs) :
    diskMapLookup specs d.diskLabel = some d.diskSizeGB := by
  induction specs with
  | nil => exact absurd hd (List.not_mem_nil d)
  | cons s rest ih =>
    simp only [List.map_cons, List.nodup_cons] at hn
    rcases List.mem_cons.mp hd with rfl | hmem
    · unfold diskMapLookup
      rw [diskMapLookup_eq_none rest d.diskLabel hn.1]
      simp
    · unfold diskMapLookup
      rw [ih hn.2 hmem]

theorem processDisks_error_of_shrink (lookup : String → Option Int)
    (disks : List VirtualDisk) (disk : VirtualDisk) (sz : Int)
    (hmem : disk ∈ disks) (hl : lookup disk.label = some sz)
    (hshrink : GiBToByte sz < disk.capacityInBytes) :
    processDisks lookup disks = .error diskShrinkErr := by
  induction disks with
  | nil => exact absurd hmem (List.not_mem_nil disk)
  | cons d rest ih =>
    rcases List.mem_cons.mp hmem with rfl | hmem'
    · unfold processDisks
      rw [hl]
      simp [hshrink]
    · unfold processDisks
      cases hld : lookup d.label with
      | none => rw [ih hmem']
      | some newSize =>
        by_cases hs : GiBToByte newSize < d.capacityInBytes
        · simp [hs]
        · simp only [hs, if_false]
          rw [ih hmem']

theorem processDisks_of_no_match (lookup : String → Option Int)
    (disks : List VirtualDisk)
    (h : ∀ disk ∈ disks, lookup disk.label = none) :
    processDisks lookup disks = .ok ([], false) := by
  induction disks with
  | nil => rfl
  | cons d rest ih =>
    unfold processDisks
    rw [h d (List.mem_cons_self d rest),
      ih (fun disk hm => h disk (List.mem_cons_of_mem d hm))]

theorem processDisks_ok_no_nic_entries (lookup : String → Option Int) :
    ∀ (disks : List VirtualDisk) (specs : List DeviceConfigSpec) (b : Bool),
      processDisks lookup disks = .ok (specs, b) →
      nicAddKeys specs = [] ∧ nicRemovalKeys specs = [] := by
  intro disks
  induction disks with
  | nil =>
    intro specs b h
    unfold processDisks at h
    injection h with h'
    injection h' with h1 h2
    subst h1
    exact ⟨rfl, rfl⟩
  | cons d rest ih =>
    intro specs b h
    unfold processDisks at h
    cases hld : lookup d.label with
    | none =>
      rw [hld] at h
      dsimp only at h
      cases hr : processDisks lookup rest with
      | error e => rw [hr] at h; exact absurd h (by simp)
      | ok p =>
        obtain ⟨specs', b'⟩ := p
        rw [hr] at h
        dsimp only at h
        injection h with h'
        injection h' with h1 h2
        subst h1
        exact ih specs' b' hr
    | some newSize =>
      rw [hld] at h
      dsimp only at h
      by_cases hsh : GiBToByte newSize < d.capacityInBytes
      · rw [if_pos hsh] at h; exact absurd h (by simp)
      · rw [if_neg hsh] at h
        cases hr : processDisks lookup rest with
        | error e => rw [hr] at h; exact absurd h (by simp)
        | ok p =>
          obtain ⟨specs', b'⟩ := p
          rw [hr] at h
          dsimp only at h
          injection h with h'
          injection h' with h1 h2
          subst h1
          obtain ⟨iha, ihr⟩ := ih specs' b' hr
          constructor
          · show nicAddKeys (_ :: specs') = []
            simp only [nicAddKeys, List.filterMap_cons] at iha ⊢
            exact iha
          · show nicRemovalKeys (_ :: specs') = []
            simp only [nicRemovalKeys, List.filterMap_cons] at ihr ⊢
            exact ihr

theorem buildNicAdds_ok (resolveNet : String → Except String String) :
    ∀ (nets : List String) (k : Int) (specs : List DeviceConfigSpec),
      buildNicAdds resolveNet nets k = .ok specs →
      nicAddKeys specs = (List.range nets.length).map (fun i : Nat => k - (i : Int)) ∧
      nicRemovalKeys specs = [] := by
  intro nets
  induction nets with
  | nil =>
    intro k specs h
    unfold buildNicAdds at h
    injection h with h'
    rw [← h']
    exact ⟨rfl, rfl⟩
  | cons n rest ih =>
    intro k specs h
    unfold buildNicAdds at h
    cases hn : resolveNet n with
    | error e => rw [hn] at h; exact absurd h (by simp)
    | ok backing =>
      rw [hn] at h
      dsimp only at h
      cases hr : buildNicAdds resolveNet rest (k - 1) with
      | error e => rw [hr] at h; exact absurd h (by simp)
      | ok specs' =>
        rw [hr] at h
        dsimp only at h
        injection h with h'
        obtain ⟨ih1, ih2⟩ := ih (k - 1) specs' hr
        rw [← h']
        constructor
        · show k :: nicAddKeys specs' = _
          rw [ih1, List.length_cons, List.range_succ_eq_map, List.map_cons,
            List.map_map]
          have hf : ((fun i : Nat => k - (i : Int)) ∘ Nat.succ) =
              fun i : Nat => k - 1 - (i : Int) := by
            funext i
            simp only [Function.comp]
            push_cast
            ring
          rw [hf]
          simp
        · show nicRemovalKeys specs' = []
          exact ih2

theorem nicRemovals_keys :
    ∀ (ks : List Int),
      nicAddKeys (ks.map fun k =>
        { operation := DeviceOperation.remove, device := SpecDevice.ethernet k }) = [] ∧
      nicRemovalKeys (ks.map fun k =>
        { operation := DeviceOperation.remove, device := SpecDevice.ethernet k }) = ks := by
  intro ks
  induction ks with
  | nil => exact ⟨rfl, rfl⟩
  | cons k rest ih =>
    constructor
    · exact ih.1
    · show k :: nicRemovalKeys (rest.map fun k =>
        { operation := DeviceOperation.remove, device := SpecDevice.ethernet k }) = k :: rest
      rw [ih.2]

theorem buildDeviceChanges_ok_inv (m : MachineState) (tds : List TemplateDevice)
    (resolveNet : String → Except String String) (specs : List DeviceConfigSpec)
    (h : buildDeviceChanges m tds resolveNet = .ok specs) :
    ∃ edits change adds,
      processDisks (diskMapLookup m.disks) (selectDisks tds) = .ok (edits, change) ∧
      buildNicAdds resolveNet m.networks (-100) = .ok adds ∧
      specs = edits ++ nicRemovals tds ++ adds := by
  unfold buildDeviceChanges at h
  cases hp : processDisks (diskMapLookup m.disks) (selectDisks tds) with
  | error e => rw [hp] at h; exact absurd h (by simp)
  | ok p =>
    obtain ⟨edits, change⟩ := p
    rw [hp] at h
    dsimp only at h
    by_cases hc : (!change && !m.disks.isEmpty) = true
    · rw [if_pos hc] at h; exact absurd h (by simp)
    · rw [if_neg hc] at h
      cases hb : buildNicAdds resolveNet m.networks (-100) with
      | error e => rw [hb] at h; exact absurd h (by simp)
      | ok adds =>
        rw [hb] at h
        dsimp only at h
        injection h with h'
        exact ⟨edits, change, adds, rfl, rfl, h'.symm⟩

theorem cloneVirtualMachine_submitted_inv (m : MachineState) (env : CloneEnv)
    (specs : List DeviceConfigSpec)
    (h : (cloneVirtualMachine m env).submitted = some specs) :
    buildDeviceChanges m env.templateDevices env.resolveNet = .ok specs := by
  unfold cloneVirtualMachine at h
  cases hp : env.preSteps with
  | error e => rw [hp] at h; exact absurd h (by simp)
  | ok u =>
    rw [hp] at h
    dsimp only at h
    cases hb : buildDeviceChanges m env.templateDevices env.resolveNet with
    | error e => rw [hb] at h; exact absurd h (by simp)
    | ok ds =>
      rw [hb] at h
      dsimp only at h
      cases hs : env.submitClone with
      | error e => rw [hs] at h; exact absurd h (by simp)
      | ok t =>
        rw [hs] at h
        dsimp only at h
        simp only [Option.some.injEq] at h
        rw [h]

theorem nicAddKeys_append (l1 l2 : List DeviceConfigSpec) :
    nicAddKeys (l1 ++ l2) = nicAddKeys l1 ++ nicAddKeys l2 := by
  simp [nicAddKeys, List.filterMap_append]

theorem nicRemovalKeys_append (l1 l2 : List DeviceConfigSpec) :
    nicRemovalKeys (l1 ++ l2) = nicRemovalKeys l1 ++ nicRemovalKeys l2 := by
  simp [nicRemovalKeys, List.filterMap_append]

/-- Claim C7: a Disk Resize Directive whose label matches a template disk
and whose requested size (converted to bytes) is smaller than that disk's
current size makes the clone-spec building fail with the fatal shrink
configuration error; no clone operation is submitted and the machine record
is untouched.  The directive labels are pairwise distinct, matching the
data model's label-to-size mapping. -/
theorem disk_shrink_rejected (m : MachineState) (env : CloneEnv)
    (d : DiskSpec) (disk : VirtualDisk)
    (hnodup : (m.disks.map (fun s => s.diskLabel)).Nodup)
    (hd : d ∈ m.disks)
    (hdisk : disk ∈ selectDisks env.templateDevices)
    (hlabel : disk.label = d.diskLabel)
    (hshrink : GiBToByte d.diskSizeGB < disk.capacityInBytes)
    (hpre : env.preSteps = .ok ()) :
    (cloneVirtualMachine m env).result = .err diskShrinkErr ∧
    (cloneVirtualMachine m env).submitted = none ∧
    (cloneVirtualMachine m env).machine = m := by
  have hl : diskMapLookup m.disks disk.label = some d.diskSizeGB := by
    rw [hlabel]
    exact diskMapLookup_of_nodup m.disks d hnodup hd
  have hp := processDisks_error_of_shrink (diskMapLookup m.disks)
    (selectDisks env.templateDevices) disk d.diskSizeGB hdisk hl hshrink
  have hb : buildDeviceChanges m env.templateDevices env.resolveNet =
      .error diskShrinkErr := by
    unfold buildDeviceChanges
    rw [hp]
  simp [cloneVirtualMachine, hpre, hb]

theorem disk_shrink_rejected_witness :
    (cloneVirtualMachine
        { name := "machine-h", taskRef := "", machineRef := "", vmTemplate := "tmpl"
          disks := [{ diskLabel := "data", diskSizeGB := 1 }], networks := [] }
        { preSteps := .ok ()
          templateDevices :=
            [TemplateDevice.disk { label := "data", capacityInBytes := GiBToByte 50 }]
          resolveNet := fun _ => .error "unused"
          submitClone := .ok "task-8" }).result = .err diskShrinkErr ∧
    (cloneVirtualMachine
        { name := "machine-h", taskRef := "", machineRef := "", vmTemplate := "tmpl"
          disks := [{ diskLabel := "data", diskSizeGB := 1 }], networks := [] }
        { preSteps := .ok ()
          templateDevices :=
            [TemplateDevice.disk { label := "data", capacityInBytes := GiBToByte 50 }]
          resolveNet := fun _ => .error "unused"
          submitClone := .ok "task-8" }).submitted = none := by
  have h := disk_shrink_rejected
    { name := "machine-h", taskRef := "", machineRef := "", vmTemplate := "tmpl"
      disks := [{ diskLabel := "data", diskSizeGB := 1 }], networks := [] }
    { preSteps := .ok ()
      templateDevices :=
        [TemplateDevice.disk { label := "data", capacityInBytes := GiBToByte 50 }]
      resolveNet := fun _ => .error "unused"
      submitClone := .ok "task-8" }
    { diskLabel := "data", diskSizeGB := 1 }
    { label := "data", capacityInBytes := GiBToByte 50 }
    (by decide) (by decide) (by decide) rfl (by decide) rfl
  exact ⟨h.1, h.2.1⟩

/-- Claim C8: a non-empty set of Disk Resize Directives of which none
matches any disk label on the template makes the clone-spec building fail
with the fatal no-match configuration error; no clone operation is
submitted and the machine record is untouched. -/
theorem no_matching_disk_rejected (m : MachineState) (env : CloneEnv)
    (hne : m.disks ≠ [])
    (hmatch : ∀ disk ∈ selectDisks env.templateDevices,
      disk.label ∉ m.disks.map (fun s => s.diskLabel))
    (hpre : env.preSteps = .ok ()) :
    (cloneVirtualMachine m env).result = .err (noDiskMatchedErr m.vmTemplate) ∧
    (cloneVirtualMachine m env).submitted = none ∧
    (cloneVirtualMachine m env).machine = m := by
  have hp : processDisks (diskMapLookup m.disks) (selectDisks env.templateDevices) =
      .ok ([], false) :=
    processDisks_of_no_match _ _
      (fun disk hm => diskMapLookup_eq_none m.disks disk.label (hmatch disk hm))
  have hie : m.disks.isEmpty = false := by
    cases hm : m.disks with
    | nil => exact absurd hm hne
    | cons a l => rfl
  have hb : buildDeviceChanges m env.templateDevices env.resolveNet =
      .error (noDiskMatchedErr m.vmTemplate) := by
    unfold buildDeviceChanges
    rw [hp]
    dsimp only
    rw [if_pos (by simp [hie])]
  simp [cloneVirtualMachine, hpre, hb]

theorem no_matching_disk_rejected_witness :
    (cloneVirtualMachine
        { name := "machine-i", taskRef := "", machineRef := "", vmTemplate := "tmpl"
          disks := [{ diskLabel := "nomatch", diskSizeGB := 10 }], networks := [] }
        { preSteps := .ok ()
          templateDevices :=
            [TemplateDevice.disk { label := "data", capacityInBytes := GiBToByte 50 }]
          resolveNet := fun _ => .error "unused"
          submitClone := .ok "task-8" }).result = .err (noDiskMatchedErr "tmpl") ∧
    (cloneVirtualMachine
        { name := "machine-i", taskRef := "", machineRef := "", vmTemplate := "tmpl"
          disks := [{ diskLabel := "nomatch", diskSizeGB := 10 }], networks := [] }
        { preSteps := .ok ()
          templateDevices :=
            [TemplateDevice.disk { label := "data", capacityInBytes := GiBToByte 50 }]
          resolveNet := fun _ => .error "unused"
          submitClone := .ok "task-8" }).submitted = none := by
  have h := no_matching_disk_rejected
    { name := "machine-i", taskRef := "", machineRef := "", vmTemplate := "tmpl"
      disks := [{ diskLabel := "nomatch", diskSizeGB := 10 }], networks := [] }
    { preSteps := .ok ()
      templateDevices :=
        [TemplateDevice.disk { label := "data", capacityInBytes := GiBToByte 50 }]
      resolveNet := fun _ => .error "unused"
      submitClone := .ok "task-8" }
    (by decide) (by decide) rfl
  exact ⟨h.1, h.2.1⟩

/-- Claim C9: every clone specification that reaches submission carries one
removal device-change entry per pre-existing network adapter on the
template (in order, by device key) and exactly N added adapter entries for
the N configured networks, the added adapters carrying sequential synthetic
device keys counting down from -100 — all of them negative and pairwise
distinct. -/
theorem clone_spec_network_device_changes (m : MachineState) (env : CloneEnv)
    (specs : List DeviceConfigSpec)
    (h : (cloneVirtualMachine m env).submitted = some specs) :
    nicRemovalKeys specs = selectNicKeys env.templateDevices ∧
    nicAddKeys specs =
      (List.range m.networks.length).map (fun i : Nat => -100 - (i : Int)) ∧
    (nicAddKeys specs).length = m.networks.length ∧
    (nicAddKeys specs).Nodup ∧
    (∀ key ∈ nicAddKeys specs, key < 0) := by
  obtain ⟨edits, change, adds, hp, hb, hspec⟩ :=
    buildDeviceChanges_ok_inv m env.templateDevices env.resolveNet specs
      (cloneVirtualMachine_submitted_inv m env specs h)
  obtain ⟨hea, her⟩ := processDisks_ok_no_nic_entries _ _ edits change hp
  obtain ⟨hba, hbr⟩ := buildNicAdds_ok env.resolveNet m.networks (-100) adds hb
  have hrem1 : nicAddKeys (nicRemovals env.templateDevices) = [] :=
    (nicRemovals_keys (selectNicKeys env.templateDevices)).1
  have hrem2 : nicRemovalKeys (nicRemovals env.templateDevices) =
      selectNicKeys env.templateDevices :=
    (nicRemovals_keys (selectNicKeys env.templateDevices)).2
  subst hspec
  have hA : nicAddKeys (edits ++ nicRemovals env.templateDevices ++ adds) =
      (List.range m.networks.length).map (fun i : Nat => -100 - (i : Int)) := by
    rw [nicAddKeys_append, nicAddKeys_append, hea, hrem1, hba]
    simp
  have hR : nicRemovalKeys (edits ++ nicRemovals env.templateDevices ++ adds) =
      selectNicKeys env.templateDevices := by
    rw [nicRemovalKeys_append, nicRemovalKeys_append, her, hrem2, hbr]
    simp
  refine ⟨hR, hA, ?_, ?_, ?_⟩
  · rw [hA]
    simp
  · rw [hA]
    refine List.Nodup.map ?_ (List.nodup_range _)
    intro a b hab
    dsimp only at hab
    omega
  · intro key hk
    rw [hA] at hk
    simp only [List.mem_map] at hk
    obtain ⟨i, _, rfl⟩ := hk
    omega

theorem clone_spec_network_device_changes_witness :
    nicRemovalKeys
      [{ operation := DeviceOperation.remove, device := SpecDevice.ethernet 4000 },
       { operation := DeviceOperation.remove, device := SpecDevice.ethernet 4001 },
       { operation := DeviceOperation.add, device := SpecDevice.vmxnet3 (-100) "backing-net-a" },
       { operation := DeviceOperation.add, device := SpecDevice.vmxnet3 (-101) "backing-net-b" }] =
      [4000, 4001] ∧
    nicAddKeys
      [{ operation := DeviceOperation.remove, device := SpecDevice.ethernet 4000 },
       { operation := DeviceOperation.remove, device := SpecDevice.ethernet 4001 },
       { operation := DeviceOperation.add, device := SpecDevice.vmxnet3 (-100) "backing-net-a" },
       { operation := DeviceOperation.add, device := SpecDevice.vmxnet3 (-101) "backing-net-b" }] =
      [-100, -101] ∧
    (nicAddKeys
      [{ operation := DeviceOperation.remove, device := SpecDevice.ethernet 4000 },
       { operation := DeviceOperation.remove, device := SpecDevice.ethernet 4001 },
       { operation := DeviceOperation.add, device := SpecDevice.vmxnet3 (-100) "backing-net-a" },
       { operation := DeviceOperation.add, device := SpecDevice.vmxnet3 (-101) "backing-net-b" }]).Nodup := by
  have h := clone_spec_network_device_changes
    { name := "machine-j", taskRef := "", machineRef := "", vmTemplate := "tmpl"
      disks := [], networks := ["net-a", "net-b"] }
    { preSteps := .ok ()
      templateDevices :=
        [TemplateDevice.ethernet 4000,
         TemplateDevice.disk { label := "data", capacityInBytes := GiBToByte 50 },
         TemplateDevice.ethernet 4001]
      resolveNet := fun n => .ok ("backing-" ++ n)
      submitClone := .ok "task-9" }
    [{ operation := DeviceOperation.remove, device := SpecDevice.ethernet 4000 },
     { operation := DeviceOperation.remove, device := SpecDevice.ethernet 4001 },
     { operation := DeviceOperation.add, device := SpecDevice.vmxnet3 (-100) "backing-net-a" },
     { operation := DeviceOperation.add, device := SpecDevice.vmxnet3 (-101) "backing-net-b" }]
    rfl
  exact ⟨h.1.trans (by decide), h.2.1.trans (by decide), h.2.2.2.1⟩

end VSphereCreate
